import Mathlib

/-!
A shallow embedding of the Badgagotchi virtual-pet simulation (src/app.py).

The embedded state carries every field of the Python object that the
simulation logic reads or writes, except purely cosmetic animation fields
that no other code observes (eye blink/look state driven by random draws,
and the game-over LED breathing brightness/direction): those fields are
written only by the display code and never influence stats, phase, timing
or persistence.  External effects (drawing, LED hardware writes, the event
bus, minimising) are outside the state; the persisted high-score file is
modelled by the field `persisted_best`, written exactly where
`_save_high_score` is called.  Wall-clock reads (`time.time()`) become an
explicit `now : Int` argument of the operations that perform them.
-/

namespace Badgagotchi

/-- Constants from the top of src/app.py. -/
def MAX_STAT : Int := 100

/-- Minimum stat value. -/
def MIN_STAT : Int := 0

/-- Ticks between decay updates (50 ticks of 0.05 s each). -/
def TICK_RATE : Nat := 50

/-- Poo threshold used by the cross-penalty, Clean reward and messages. -/
def POO_THRESHOLD : Int := 50

/-- The mutable state of the `Badgagotchi` object (fields of `__init__`
relevant to the simulation; see the module comment for the omitted
cosmetic fields).  `persisted_best` models the content of the high-score
save file. -/
structure GState where
  hunger : Int
  happiness : Int
  poo : Int
  tick_counter : Nat
  status_message : String
  game_over : Bool
  death_reason : String
  app_should_close : Bool
  show_intro : Bool
  led_warning_active : Bool
  high_score_seconds : Int
  game_start_time : Option Int
  time_alive_seconds : Int
  is_new_high_score : Bool
  persisted_best : Int
deriving DecidableEq

/-- The state built by `__init__`, with `_load_high_score` returning
`loaded` (0 when the save file is missing or invalid). -/
def init_state (loaded : Int) : GState :=
  { hunger := 70
    happiness := 70
    poo := 0
    tick_counter := 0
    status_message := "Hi There!"
    game_over := false
    death_reason := ""
    app_should_close := false
    show_intro := true
    led_warning_active := false
    high_score_seconds := loaded
    game_start_time := none
    time_alive_seconds := 0
    is_new_high_score := false
    persisted_best := loaded }

/-- Debounced button snapshot consumed by `update` (the `Buttons`
collaborator: `get` reads a flag, `clear` acknowledges the press). -/
structure ButtonState where
  cancel : Bool
  confirm : Bool
  up : Bool
  right : Bool
deriving DecidableEq

/-- The death-condition if-chain of `_check_game_over` (src/app.py lines
209-234).  Each death branch also performs `_start_game_over_leds`, whose
only effect on the modelled state is clearing `led_warning_active`.  The
boolean is the local `game_over` variable of the Python function. -/
def death_branches (s : GState) : GState × Bool :=
  if s.hunger ≤ MIN_STAT then
    ({ s with game_over := true, death_reason := "Died of Hunger",
              led_warning_active := false }, true)
  else if s.hunger ≥ MAX_STAT then
    ({ s with game_over := true, death_reason := "Oof That\x27s too much food",
              led_warning_active := false }, true)
  else if s.happiness ≤ MIN_STAT then
    ({ s with game_over := true, death_reason := "Got too sad",
              led_warning_active := false }, true)
  else if s.happiness ≥ MAX_STAT then
    ({ s with game_over := true, death_reason := "Died of exhaustion",
              led_warning_active := false }, true)
  else if s.poo ≥ MAX_STAT then
    ({ s with game_over := true, death_reason := "Covered in poo",
              led_warning_active := false }, true)
  else (s, false)

/-- The high-score tracking block of `_check_game_over` (src/app.py lines
236-242), run when the local flag is set and a game timer is running.
`_save_high_score` is modelled by writing `persisted_best`. -/
def high_score_track (now : Int) (p : GState × Bool) : GState × Bool :=
  match p.2, p.1.game_start_time with
  | true, some t0 =>
      let elapsed := now - t0
      let s2 := { p.1 with time_alive_seconds := elapsed }
      if elapsed > s2.high_score_seconds then
        ({ s2 with is_new_high_score := true, persisted_best := elapsed,
                   high_score_seconds := elapsed }, true)
      else (s2, true)
  | _, _ => p

/-- Embeds `_check_game_over` (src/app.py lines 207-244): the death
if-chain followed by the high-score block.  Returns the state together
with the local `game_over` flag the Python function returns. -/
def check_game_over (now : Int) (s : GState) : GState × Bool :=
  high_score_track now (death_branches s)

/-- Embeds `_process_decay` (src/app.py lines 295-315): decay/growth with
clamping, the two cross-penalties on happiness, a final defensive clamp of
all three stats, then the game-over check. -/
def process_decay (now : Int) (hunger_decay happiness_decay poo_growth : Int)
    (s : GState) : GState :=
  let s1 := { s with hunger := max MIN_STAT (s.hunger - hunger_decay)
                     happiness := max MIN_STAT (s.happiness - happiness_decay)
                     poo := min MAX_STAT (s.poo + poo_growth) }
  let s2 := if s1.hunger < 30 then
      { s1 with happiness := max MIN_STAT (s1.happiness - 5) } else s1
  let s3 := if s2.poo > POO_THRESHOLD then
      { s2 with happiness := max MIN_STAT (s2.happiness - 5) } else s2
  let s4 := { s3 with hunger := max MIN_STAT (min MAX_STAT s3.hunger)
                      happiness := max MIN_STAT (min MAX_STAT s3.happiness)
                      poo := max MIN_STAT (min MAX_STAT s3.poo) }
  (check_game_over now s4).1

/-- Danger contribution of hunger in `_update_led_warning` (low zone 0-20
and high zone 80-100).  Python computes these with exact small-integer
float arithmetic; rationals model it faithfully. -/
def hunger_danger (s : GState) : Rat :=
  max (max 0 ((20 : Rat) - (s.hunger : Rat)) / 20)
      (max 0 ((s.hunger : Rat) - 80) / 20)

/-- Danger contribution of happiness in `_update_led_warning`. -/
def happiness_danger (s : GState) : Rat :=
  max (max 0 ((20 : Rat) - (s.happiness : Rat)) / 20)
      (max 0 ((s.happiness : Rat) - 80) / 20)

/-- Danger contribution of poo in `_update_led_warning` (high zone only). -/
def poo_danger (s : GState) : Rat :=
  max 0 ((s.poo : Rat) - 80) / 20

/-- The overall danger level of `_update_led_warning`: the maximum of the
three per-stat danger levels. -/
def danger_level (s : GState) : Rat :=
  max (max (hunger_danger s) (happiness_danger s)) (poo_danger s)

/-- Embeds `_update_led_warning` (src/app.py lines 93-141) restricted to
the modelled state: LED colour writes are external; the observable effect
is that an active warning is switched off exactly when the danger level
is 0. -/
def update_led_warning (s : GState) : GState :=
  if s.led_warning_active = false then s
  else if danger_level s = 0 then { s with led_warning_active := false }
  else s

/-- Embeds `_check_for_warnings` (src/app.py lines 68-80): when no warning
is active and the game is not over, a stat within 20 points of a death
boundary (boundary inclusive) triggers the warning
(`_trigger_led_warning` sets `led_warning_active`). -/
def check_for_warnings (s : GState) : GState :=
  if s.led_warning_active = true ∨ s.game_over = true then s
  else if s.hunger ≤ 20 ∨ s.hunger ≥ 80 ∨ s.happiness ≤ 20 ∨ s.happiness ≥ 80 ∨
          s.poo ≥ 80 then
    { s with led_warning_active := true }
  else s

/-- Embeds `background_update` (src/app.py lines 318-342). -/
def background_update (now : Int) (s : GState) : GState :=
  if s.app_should_close then s
  else
    let sa := if s.led_warning_active then update_led_warning s else s
    let sb := { sa with tick_counter := sa.tick_counter + 1 }
    if sb.tick_counter ≥ TICK_RATE then
      let sc := process_decay now 1 1 2 { sb with tick_counter := 0 }
      check_for_warnings sc
    else sb

/-- Embeds the UP-button Feed branch of `update` (src/app.py lines
439-448): hunger += 15; on an unclamped result at or above MAX, clamp to
MAX and run the death check before poo changes; then poo += 5 (capped);
the status message is set only when the game is not over. -/
def feed_action (now : Int) (s : GState) : GState :=
  let s1 := { s with hunger := s.hunger + 15 }
  let s2 := if s1.hunger ≥ MAX_STAT then
      (check_game_over now { s1 with hunger := MAX_STAT }).1
    else s1
  let s3 := { s2 with poo := min MAX_STAT (s2.poo + 5) }
  if s3.game_over = false then { s3 with status_message := "Yum!" } else s3

/-- Embeds the RIGHT-button Play branch of `update` (src/app.py lines
451-460). -/
def play_action (now : Int) (s : GState) : GState :=
  let s1 := { s with happiness := s.happiness + 15 }
  let s2 := if s1.happiness ≥ MAX_STAT then
      (check_game_over now { s1 with happiness := MAX_STAT }).1
    else s1
  let s3 := { s2 with hunger := max MIN_STAT (s2.hunger - 10) }
  if s3.game_over = false then { s3 with status_message := "Haha! Woo!" } else s3

/-- Embeds the CONFIRM-button Clean branch of `update` (src/app.py lines
463-477). -/
def clean_action (s : GState) : GState :=
  let s1 := if s.poo > POO_THRESHOLD then
      { s with happiness := min MAX_STAT (s.happiness + 10),
               status_message := "Ahhh, clean." }
    else
      { s with happiness := max MIN_STAT (s.happiness - 5),
               status_message := "Already clean!" }
  { s1 with poo := 0 }

/-- The time-based decay block of `update` (src/app.py lines 409-431):
advance the tick counter; at the threshold, reset it, run foreground
decay and refresh the status message while still alive. -/
def foreground_decay_step (now : Int) (s : GState) : GState :=
  let s1 := { s with tick_counter := s.tick_counter + 1 }
  if s1.tick_counter ≥ TICK_RATE then
    let sd := process_decay now 2 2 3 { s1 with tick_counter := 0 }
    if sd.game_over = false then
      { sd with status_message :=
          if sd.hunger < 30 then "I\x27m hungry!"
          else if sd.poo > POO_THRESHOLD then "I\x27m gunna Poo!"
          else if sd.happiness < 30 then "Urgh, I\x27m Bored!"
          else "This is Great!" }
    else sd
  else s1

/-- Embeds `update` (src/app.py lines 345-477).  `_update_eye_animation`
and `_update_game_over_leds` touch only the omitted cosmetic fields;
`minimise` and LED teardown are external.  The CANCEL branch clears an
active warning; the intro branch starts the game timer on CONFIRM; the
game-over branch resets the game on CONFIRM; otherwise the tick counter
advances, decay fires at the threshold with foreground magnitudes and
refreshes the status message, and then at most one action runs. -/
def update (now : Int) (b : ButtonState) (s : GState) : GState :=
  if b.cancel then
    { s with led_warning_active := false }
  else if s.show_intro then
    if b.confirm then
      { s with show_intro := false, game_start_time := some now,
               is_new_high_score := false }
    else if b.cancel then
      { s with app_should_close := true }
    else s
  else if s.game_over then
    if b.confirm then
      { s with hunger := 70, happiness := 70, poo := 0, game_over := false,
               death_reason := "", status_message := "Hi There!",
               tick_counter := 0, game_start_time := some now,
               time_alive_seconds := 0, is_new_high_score := false }
    else if b.cancel then
      { s with app_should_close := true }
    else s
  else
    let s2 := foreground_decay_step now s
    if b.up then feed_action now s2
    else if b.right then play_action now s2
    else if b.confirm then clean_action s2
    else s2

/-- The days component of `_seconds_to_readable` (src/app.py line 189).
Python floor division and modulo agree with the Int `/` and `%` operators here (Euclidean division: floor for a
positive divisor). -/
def days_of (seconds : Int) : Int := seconds / 86400

/-- The hours component of `_seconds_to_readable` (line 190). -/
def hours_of (seconds : Int) : Int := (seconds % 86400) / 3600

/-- The minutes component of `_seconds_to_readable` (line 191). -/
def minutes_of (seconds : Int) : Int := (seconds % 3600) / 60

/-- The seconds component of `_seconds_to_readable` (line 192). -/
def secs_of (seconds : Int) : Int := seconds % 60

/-- Embeds `_seconds_to_readable` (src/app.py lines 187-204) on integer
seconds: a pure function building the parts list and joining it with
spaces; the seconds part is appended when positive or when the list is
still empty. -/
def seconds_to_readable (seconds : Int) : String :=
  let parts : List String := []
  let parts := if days_of seconds > 0 then
      parts ++ [toString (days_of seconds) ++ "d"] else parts
  let parts := if hours_of seconds > 0 then
      parts ++ [toString (hours_of seconds) ++ "h"] else parts
  let parts := if minutes_of seconds > 0 then
      parts ++ [toString (minutes_of seconds) ++ "m"] else parts
  let parts := if secs_of seconds > 0 ∨ parts = [] then
      parts ++ [toString (secs_of seconds) ++ "s"] else parts
  String.intercalate " " parts

/-- A public operation delivered by the host: a foreground tick with a
button snapshot (`update`) or a background tick (`background_update`). -/
inductive Op where
  | fg (now : Int) (b : ButtonState)
  | bg (now : Int)

/-- One public operation applied to the state. -/
def step (op : Op) (s : GState) : GState :=
  match op with
  | .fg now b => update now b s
  | .bg now => background_update now s

/-- A sequence of public operations applied from left to right. -/
def run (ops : List Op) (s : GState) : GState :=
  ops.foldl (fun t op => step op t) s

/-- The three stats are integers in [0, 100]. -/
def stats_in_range (s : GState) : Prop :=
  0 ≤ s.hunger ∧ s.hunger ≤ 100 ∧ 0 ≤ s.happiness ∧ s.happiness ≤ 100 ∧
  0 ≤ s.poo ∧ s.poo ≤ 100

/-! Helper lemmas: which fields each operation leaves unchanged. -/

theorem death_branches_hunger (s : GState) :
    (death_branches s).1.hunger = s.hunger := by
  unfold death_branches
  repeat' split
  all_goals rfl

theorem death_branches_happiness (s : GState) :
    (death_branches s).1.happiness = s.happiness := by
  unfold death_branches
  repeat' split
  all_goals rfl

theorem death_branches_poo (s : GState) :
    (death_branches s).1.poo = s.poo := by
  unfold death_branches
  repeat' split
  all_goals rfl

theorem high_score_track_hunger (now : Int) (p : GState × Bool) :
    (high_score_track now p).1.hunger = p.1.hunger := by
  unfold high_score_track
  dsimp only
  repeat' split
  all_goals rfl

theorem high_score_track_happiness (now : Int) (p : GState × Bool) :
    (high_score_track now p).1.happiness = p.1.happiness := by
  unfold high_score_track
  dsimp only
  repeat' split
  all_goals rfl

theorem high_score_track_poo (now : Int) (p : GState × Bool) :
    (high_score_track now p).1.poo = p.1.poo := by
  unfold high_score_track
  dsimp only
  repeat' split
  all_goals rfl

theorem check_game_over_hunger (now : Int) (s : GState) :
    (check_game_over now s).1.hunger = s.hunger := by
  unfold check_game_over
  rw [high_score_track_hunger, death_branches_hunger]

theorem check_game_over_happiness (now : Int) (s : GState) :
    (check_game_over now s).1.happiness = s.happiness := by
  unfold check_game_over
  rw [high_score_track_happiness, death_branches_happiness]

theorem check_game_over_poo (now : Int) (s : GState) :
    (check_game_over now s).1.poo = s.poo := by
  unfold check_game_over
  rw [high_score_track_poo, death_branches_poo]

theorem stats_in_range_of_fields {s t : GState} (hh : s.hunger = t.hunger)
    (hp : s.happiness = t.happiness) (ho : s.poo = t.poo)
    (h : stats_in_range t) : stats_in_range s := by
  unfold stats_in_range at *
  omega

theorem process_decay_range (now a b c : Int) (s : GState) :
    stats_in_range (process_decay now a b c s) := by
  unfold process_decay
  refine stats_in_range_of_fields (check_game_over_hunger now _)
    (check_game_over_happiness now _) (check_game_over_poo now _) ?_
  unfold stats_in_range MIN_STAT MAX_STAT
  repeat' split
  all_goals simp

theorem update_led_warning_cases (s : GState) :
    update_led_warning s = s ∨
    update_led_warning s = { s with led_warning_active := false } := by
  unfold update_led_warning
  repeat' split
  all_goals simp

theorem check_for_warnings_cases (s : GState) :
    check_for_warnings s = s ∨
    check_for_warnings s = { s with led_warning_active := true } := by
  unfold check_for_warnings
  repeat' split
  all_goals simp

theorem stats_in_range_led (s : GState) (b : Bool)
    (h : stats_in_range s) :
    stats_in_range { s with led_warning_active := b } := by
  unfold stats_in_range at *
  exact h

theorem feed_action_range (now : Int) (s : GState) (h : stats_in_range s) :
    stats_in_range (feed_action now s) := by
  unfold stats_in_range at h ⊢
  unfold feed_action
  dsimp only
  repeat' split
  all_goals
    simp only [check_game_over_hunger, check_game_over_happiness,
      check_game_over_poo, MIN_STAT, MAX_STAT] at *
  all_goals omega

theorem play_action_range (now : Int) (s : GState) (h : stats_in_range s) :
    stats_in_range (play_action now s) := by
  unfold stats_in_range at h ⊢
  unfold play_action
  dsimp only
  repeat' split
  all_goals
    simp only [check_game_over_hunger, check_game_over_happiness,
      check_game_over_poo, MIN_STAT, MAX_STAT] at *
  all_goals omega

theorem clean_action_range (s : GState) (h : stats_in_range s) :
    stats_in_range (clean_action s) := by
  unfold stats_in_range at h ⊢
  unfold clean_action
  dsimp only
  repeat' split
  all_goals simp only [MIN_STAT, MAX_STAT] at *
  all_goals omega

theorem check_for_warnings_range (s : GState) (h : stats_in_range s) :
    stats_in_range (check_for_warnings s) := by
  rcases check_for_warnings_cases s with hc | hc <;> rw [hc]
  · exact h
  · exact stats_in_range_led _ _ h

theorem background_update_range (now : Int) (s : GState)
    (h : stats_in_range s) : stats_in_range (background_update now s) := by
  unfold background_update
  dsimp only
  split
  · exact h
  · split
    · split
      · exact check_for_warnings_range _ (process_decay_range _ _ _ _ _)
      · unfold stats_in_range at h ⊢
        dsimp only
        rcases update_led_warning_cases s with hu | hu <;> rw [hu] <;> exact h
    · split
      · exact check_for_warnings_range _ (process_decay_range _ _ _ _ _)
      · unfold stats_in_range at h ⊢
        dsimp only
        exact h

theorem foreground_decay_step_range (now : Int) (s : GState)
    (h : stats_in_range s) : stats_in_range (foreground_decay_step now s) := by
  unfold foreground_decay_step
  dsimp only
  split
  · split
    · refine stats_in_range_of_fields rfl rfl rfl ?_
      exact process_decay_range _ _ _ _ _
    · exact process_decay_range _ _ _ _ _
  · unfold stats_in_range at h ⊢
    dsimp only
    exact h

theorem update_range (now : Int) (b : ButtonState) (s : GState)
    (h : stats_in_range s) : stats_in_range (update now b s) := by
  unfold update
  dsimp only
  split
  · exact stats_in_range_led s false h
  · split
    · split
      · unfold stats_in_range at h ⊢
        exact h
      · exact h
    · split
      · split
        · unfold stats_in_range
          dsimp only
          norm_num
        · exact h
      · have h2 := foreground_decay_step_range now s h
        split
        · exact feed_action_range _ _ h2
        · split
          · exact play_action_range _ _ h2
          · split
            · exact clean_action_range _ h2
            · exact h2

theorem step_range (op : Op) (s : GState) (h : stats_in_range s) :
    stats_in_range (step op s) := by
  cases op with
  | fg now b => exact update_range now b s h
  | bg now => exact background_update_range now s h

theorem run_range (ops : List Op) (s : GState) (h : stats_in_range s) :
    stats_in_range (run ops s) := by
  induction ops generalizing s with
  | nil => exact h
  | cons op ops ih => exact ih (step op s) (step_range op s h)

theorem init_state_range (loaded : Int) : stats_in_range (init_state loaded) := by
  unfold stats_in_range init_state
  norm_num

/-- C1: starting from the freshly initialised state, after any sequence of
public operations (foreground ticks carrying any button input, hence Feed,
Play, Clean and restart, and background decay ticks), each of the three
stats hunger, happiness and poo is an integer in [0, 100]. -/
theorem claim_stats_always_in_range (loaded : Int) (ops : List Op) :
    stats_in_range (run ops (init_state loaded)) :=
  run_range ops (init_state loaded) (init_state_range loaded)

theorem death_branches_keeps (s : GState) :
    (death_branches s).1.tick_counter = s.tick_counter ∧
    (death_branches s).1.status_message = s.status_message ∧
    (death_branches s).1.show_intro = s.show_intro ∧
    (death_branches s).1.app_should_close = s.app_should_close ∧
    (death_branches s).1.game_start_time = s.game_start_time ∧
    (death_branches s).1.high_score_seconds = s.high_score_seconds ∧
    (death_branches s).1.persisted_best = s.persisted_best ∧
    (death_branches s).1.is_new_high_score = s.is_new_high_score ∧
    (death_branches s).1.time_alive_seconds = s.time_alive_seconds := by
  unfold death_branches
  repeat' split
  all_goals exact ⟨rfl, rfl, rfl, rfl, rfl, rfl, rfl, rfl, rfl⟩

theorem high_score_track_keeps (now : Int) (p : GState × Bool) :
    (high_score_track now p).1.tick_counter = p.1.tick_counter ∧
    (high_score_track now p).1.status_message = p.1.status_message ∧
    (high_score_track now p).1.game_over = p.1.game_over ∧
    (high_score_track now p).1.death_reason = p.1.death_reason ∧
    (high_score_track now p).1.show_intro = p.1.show_intro ∧
    (high_score_track now p).1.app_should_close = p.1.app_should_close ∧
    (high_score_track now p).1.led_warning_active = p.1.led_warning_active ∧
    (high_score_track now p).1.game_start_time = p.1.game_start_time := by
  unfold high_score_track
  dsimp only
  repeat' split
  all_goals exact ⟨rfl, rfl, rfl, rfl, rfl, rfl, rfl, rfl⟩

theorem check_game_over_game_over (now : Int) (s : GState) :
    (check_game_over now s).1.game_over = (death_branches s).1.game_over := by
  unfold check_game_over
  exact (high_score_track_keeps now (death_branches s)).2.2.1

theorem check_game_over_death_reason (now : Int) (s : GState) :
    (check_game_over now s).1.death_reason = (death_branches s).1.death_reason := by
  unfold check_game_over
  exact (high_score_track_keeps now (death_branches s)).2.2.2.1

theorem check_game_over_status (now : Int) (s : GState) :
    (check_game_over now s).1.status_message = s.status_message := by
  unfold check_game_over
  rw [(high_score_track_keeps now (death_branches s)).2.1]
  exact (death_branches_keeps s).2.1

theorem check_game_over_tick (now : Int) (s : GState) :
    (check_game_over now s).1.tick_counter = s.tick_counter := by
  unfold check_game_over
  rw [(high_score_track_keeps now (death_branches s)).1]
  exact (death_branches_keeps s).1

/-- Some stat is at a deadly extreme: exactly the disjunction of the five
death conditions tested by `_check_game_over`. -/
def death_condition (s : GState) : Prop :=
  s.hunger ≤ MIN_STAT ∨ s.hunger ≥ MAX_STAT ∨ s.happiness ≤ MIN_STAT ∨
  s.happiness ≥ MAX_STAT ∨ s.poo ≥ MAX_STAT

theorem death_branches_fires (s : GState) :
    (death_branches s).2 = true ↔ death_condition s := by
  unfold death_branches death_condition MIN_STAT MAX_STAT
  split_ifs
  all_goals simp
  all_goals omega

theorem death_branches_game_over (s : GState) (h : death_condition s) :
    (death_branches s).1.game_over = true := by
  unfold death_branches death_condition MIN_STAT MAX_STAT at *
  split_ifs
  all_goals first | rfl | omega

/-- C3: death-cause evaluation tests hunger-low, hunger-high,
happiness-low, happiness-high, poo-high in this fixed order and records
the first matching cause; in particular a state with hunger = 0 and
poo = 100 simultaneously records the starvation cause "Died of Hunger",
never the poo cause "Covered in poo". -/
theorem claim_death_cause_priority (now : Int) (s : GState) :
    (s.hunger ≤ 0 →
      (check_game_over now s).1.death_reason = "Died of Hunger") ∧
    (0 < s.hunger → 100 ≤ s.hunger →
      (check_game_over now s).1.death_reason = "Oof That\x27s too much food") ∧
    (0 < s.hunger → s.hunger < 100 → s.happiness ≤ 0 →
      (check_game_over now s).1.death_reason = "Got too sad") ∧
    (0 < s.hunger → s.hunger < 100 → 0 < s.happiness → 100 ≤ s.happiness →
      (check_game_over now s).1.death_reason = "Died of exhaustion") ∧
    (0 < s.hunger → s.hunger < 100 → 0 < s.happiness → s.happiness < 100 →
      100 ≤ s.poo →
      (check_game_over now s).1.death_reason = "Covered in poo") ∧
    (s.hunger = 0 → s.poo = 100 →
      (check_game_over now s).1.game_over = true ∧
      (check_game_over now s).1.death_reason = "Died of Hunger" ∧
      (check_game_over now s).1.death_reason ≠ "Covered in poo") := by
  simp only [check_game_over_death_reason, check_game_over_game_over]
  unfold death_branches MIN_STAT MAX_STAT
  refine ⟨?_, ?_, ?_, ?_, ?_, ?_⟩
  · intro h1
    rw [if_pos h1]
  · intro h1 h2
    rw [if_neg (by omega), if_pos (by omega)]
  · intro h1 h2 h3
    rw [if_neg (by omega), if_neg (by omega), if_pos h3]
  · intro h1 h2 h3 h4
    rw [if_neg (by omega), if_neg (by omega), if_neg (by omega),
      if_pos (by omega)]
  · intro h1 h2 h3 h4 h5
    rw [if_neg (by omega), if_neg (by omega), if_neg (by omega),
      if_neg (by omega), if_pos (by omega)]
  · intro h1 h2
    rw [if_pos (by omega)]
    refine ⟨rfl, rfl, ?_⟩
    dsimp only
    decide

/-- Concrete state for the C3 witness: hunger at its low extreme and poo
at its high extreme simultaneously. -/
def c3_state : GState :=
  { init_state 0 with hunger := 0, poo := 100, show_intro := false }

/-- Witness for C3 at hunger = 0, poo = 100. -/
theorem claim_death_cause_priority_witness :
    (check_game_over 5 c3_state).1.game_over = true ∧
    (check_game_over 5 c3_state).1.death_reason = "Died of Hunger" ∧
    (check_game_over 5 c3_state).1.death_reason ≠ "Covered in poo" :=
  (claim_death_cause_priority 5 c3_state).2.2.2.2.2 rfl rfl

/-- A game-over state exactly as left by a first death check: the pet
starved at instant 100, the timer started at 0, the previous best was 90,
so the first check recorded 100 seconds and saved it. -/
def c2_pre : GState :=
  { init_state 0 with
    hunger := 0, happiness := 50, poo := 50,
    show_intro := false, game_start_time := some 0,
    high_score_seconds := 90, persisted_best := 90 }

/-- C2 (refuting the claimed idempotence): after the first death check at
instant 100 has put the state in GameOver with recorded survival time 100
and best 100, a second call of the death check at instant 200 recomputes
the survival time to 200 and updates and re-persists the best record. -/
theorem claim_death_check_second_call_changes_state :
    ((check_game_over 100 c2_pre).1.game_over = true ∧
     (check_game_over 100 c2_pre).1.time_alive_seconds = 100 ∧
     (check_game_over 100 c2_pre).1.high_score_seconds = 100 ∧
     (check_game_over 100 c2_pre).1.persisted_best = 100) ∧
    ((check_game_over 200 (check_game_over 100 c2_pre).1).1.time_alive_seconds
        = 200 ∧
     (check_game_over 200 (check_game_over 100 c2_pre).1).1.high_score_seconds
        = 200 ∧
     (check_game_over 200 (check_game_over 100 c2_pre).1).1.persisted_best
        = 200 ∧
     (check_game_over 200 (check_game_over 100 c2_pre).1).1 ≠
        (check_game_over 100 c2_pre).1) := by
  decide

theorem high_score_track_game_over (now : Int) (p : GState × Bool) :
    (high_score_track now p).1.game_over = p.1.game_over :=
  (high_score_track_keeps now p).2.2.1

theorem high_score_track_death_reason (now : Int) (p : GState × Bool) :
    (high_score_track now p).1.death_reason = p.1.death_reason :=
  (high_score_track_keeps now p).2.2.2.1

theorem high_score_track_status (now : Int) (p : GState × Bool) :
    (high_score_track now p).1.status_message = p.1.status_message :=
  (high_score_track_keeps now p).2.1

theorem death_branches_overfed (s : GState) (h2 : 100 ≤ s.hunger) :
    death_branches s =
      ({ s with game_over := true,
                death_reason := "Oof That\x27s too much food",
                led_warning_active := false }, true) := by
  unfold death_branches MIN_STAT MAX_STAT
  rw [if_neg (show ¬ s.hunger ≤ 0 by omega),
    if_pos (show s.hunger ≥ 100 by omega)]

theorem death_branches_starved (s : GState) (h : s.hunger ≤ 0) :
    death_branches s =
      ({ s with game_over := true, death_reason := "Died of Hunger",
                led_warning_active := false }, true) := by
  unfold death_branches MIN_STAT
  rw [if_pos (show s.hunger ≤ 0 by omega)]

theorem check_game_over_fires (now : Int) (s : GState)
    (h : death_condition s) :
    (check_game_over now s).1.game_over = true := by
  rw [check_game_over_game_over]
  exact death_branches_game_over s h

/-- C4: Feed adds the configured increment 15 to hunger; when the
unclamped result reaches or exceeds MAX_STAT the stat is clamped to 100
and the overfeed death check runs before poo changes, so the recorded
cause of an overfeed death is the Overfed reason and is not altered by
the subsequent poo += 5; in particular Feed at hunger ≥ 85 (so at 85)
yields GameOver with the Overfed reason and hunger = 100. -/
theorem claim_feed_overfeed_order (now : Int) (s : GState) :
    (s.hunger + 15 < 100 →
      (feed_action now s).hunger = s.hunger + 15 ∧
      (feed_action now s).game_over = s.game_over ∧
      (feed_action now s).death_reason = s.death_reason ∧
      (feed_action now s).poo = min 100 (s.poo + 5)) ∧
    (85 ≤ s.hunger →
      (feed_action now s).hunger = 100 ∧
      (feed_action now s).game_over = true ∧
      (feed_action now s).death_reason = "Oof That\x27s too much food" ∧
      (feed_action now s).poo = min 100 (s.poo + 5) ∧
      (feed_action now s).status_message = s.status_message) := by
  constructor
  · intro hlt
    unfold feed_action
    dsimp only
    rw [if_neg (show ¬ s.hunger + 15 ≥ MAX_STAT by unfold MAX_STAT; omega)]
    split
    · exact ⟨rfl, rfl, rfl, rfl⟩
    · exact ⟨rfl, rfl, rfl, rfl⟩
  · intro h85
    unfold feed_action check_game_over
    dsimp only
    rw [if_pos (show s.hunger + 15 ≥ MAX_STAT by unfold MAX_STAT; omega)]
    have hdb := death_branches_overfed { s with hunger := MAX_STAT }
      (by norm_num [MAX_STAT])
    rw [hdb]
    simp only [high_score_track_hunger, high_score_track_poo,
      high_score_track_game_over, high_score_track_death_reason,
      high_score_track_status]
    norm_num [MAX_STAT]

/-- Concrete state for the C4 witness: hunger exactly 85. -/
def c4_state : GState :=
  { init_state 0 with hunger := 85, poo := 40, show_intro := false }

/-- Witness for C4: feeding at hunger = 85 ends the game with the Overfed
reason, hunger clamped to 100 and poo incremented afterwards. -/
theorem claim_feed_overfeed_order_witness :
    (feed_action 7 c4_state).hunger = 100 ∧
    (feed_action 7 c4_state).game_over = true ∧
    (feed_action 7 c4_state).death_reason = "Oof That\x27s too much food" ∧
    (feed_action 7 c4_state).poo = min 100 (c4_state.poo + 5) ∧
    (feed_action 7 c4_state).status_message = c4_state.status_message :=
  (claim_feed_overfeed_order 7 c4_state).2 (by decide)

/-- C5: Clean rewards a dirty pet (poo > 50) with happiness + 10 capped at
100 and the clean message, punishes an unnecessary clean with
happiness - 5 floored at 0 and the already-clean message, and resets poo
to 0 unconditionally in both branches. -/
theorem claim_clean_action (s : GState) :
    (clean_action s).poo = 0 ∧
    (clean_action s).happiness =
      (if s.poo > 50 then min 100 (s.happiness + 10)
       else max 0 (s.happiness - 5)) ∧
    (clean_action s).status_message =
      (if s.poo > 50 then "Ahhh, clean." else "Already clean!") := by
  unfold clean_action POO_THRESHOLD MIN_STAT MAX_STAT
  dsimp only
  split
  · exact ⟨rfl, rfl, rfl⟩
  · exact ⟨rfl, rfl, rfl⟩

/-- C7: when a death condition fires with a running game timer, the
elapsed time now - t is recorded as the survival time and compared with
the stored best: if strictly greater the new-record flag is set and the
best is updated and persisted; otherwise flag, best and persisted record
are unchanged. -/
theorem claim_high_score_on_death (now t : Int) (s : GState)
    (hstart : s.game_start_time = some t) (hd : death_condition s) :
    (check_game_over now s).1.time_alive_seconds = now - t ∧
    (s.high_score_seconds < now - t →
      (check_game_over now s).1.is_new_high_score = true ∧
      (check_game_over now s).1.high_score_seconds = now - t ∧
      (check_game_over now s).1.persisted_best = now - t) ∧
    (now - t ≤ s.high_score_seconds →
      (check_game_over now s).1.is_new_high_score = s.is_new_high_score ∧
      (check_game_over now s).1.high_score_seconds = s.high_score_seconds ∧
      (check_game_over now s).1.persisted_best = s.persisted_best) := by
  have hfire : (death_branches s).2 = true := (death_branches_fires s).mpr hd
  obtain ⟨-, -, -, -, hgs, hhs, hpb, hin, -⟩ := death_branches_keeps s
  unfold check_game_over high_score_track
  rw [hfire, hgs, hstart]
  dsimp only
  rw [hhs]
  split_ifs with hgt
  · exact ⟨rfl, fun _ => ⟨rfl, rfl, rfl⟩, fun hle => absurd hgt (by omega)⟩
  · exact ⟨rfl, fun hlt => absurd hlt (by omega), fun _ => ⟨hin, rfl, hpb⟩⟩

/-- Concrete game-over state for the C7 witness: starved with timer
started at 0 and stored best 90. -/
def c7_state : GState :=
  { init_state 0 with
    hunger := 0, show_intro := false, game_start_time := some 0,
    high_score_seconds := 90, persisted_best := 90 }

/-- Witness for C7: elapsed 120 s against best 90 s sets a new record of
120 s; elapsed 50 s against best 90 s leaves the best at 90 s. -/
theorem claim_high_score_on_death_witness :
    ((check_game_over 120 c7_state).1.is_new_high_score = true ∧
     (check_game_over 120 c7_state).1.high_score_seconds = 120 ∧
     (check_game_over 120 c7_state).1.persisted_best = 120) ∧
    ((check_game_over 50 c7_state).1.is_new_high_score = false ∧
     (check_game_over 50 c7_state).1.high_score_seconds = 90 ∧
     (check_game_over 50 c7_state).1.persisted_best = 90) := by
  constructor
  · have h := (claim_high_score_on_death 120 0 c7_state rfl
      (by unfold death_condition MIN_STAT; left; decide)).2.1 (by decide)
    simpa using h
  · have h := (claim_high_score_on_death 50 0 c7_state rfl
      (by unfold death_condition MIN_STAT; left; decide)).2.2 (by decide)
    simpa [c7_state, init_state] using h

/-- C10: a secondary side-effect of an action can leave a stat at a
deadly extreme without ending the life: Play with hunger ≤ 10 (and
happiness below the over-play extreme) floors hunger to 0, and Clean with
poo ≤ 50 and happiness ≤ 5 floors happiness to 0, yet the state stays
alive (game_over = false) after the action; the death is detected only at
the next invocation of the death check. -/
theorem claim_delayed_death_after_action (now later : Int) (s : GState) :
    (s.game_over = false → s.hunger ≤ 10 → s.happiness + 15 < 100 →
      (play_action now s).hunger = 0 ∧
      (play_action now s).game_over = false ∧
      (check_game_over later (play_action now s)).1.game_over = true) ∧
    (s.game_over = false → s.poo ≤ 50 → s.happiness ≤ 5 →
      (clean_action s).happiness = 0 ∧
      (clean_action s).game_over = false ∧
      (check_game_over later (clean_action s)).1.game_over = true) := by
  constructor
  · intro hg h10 h99
    unfold play_action
    dsimp only
    rw [if_neg (show ¬ s.happiness + 15 ≥ MAX_STAT by unfold MAX_STAT; omega)]
    rw [if_pos hg]
    refine ⟨?_, ?_, ?_⟩
    · dsimp only
      unfold MIN_STAT
      omega
    · exact hg
    · apply check_game_over_fires
      unfold death_condition MIN_STAT MAX_STAT
      left
      dsimp only
      omega
  · intro hg hp h5
    unfold clean_action
    dsimp only
    rw [if_neg (show ¬ s.poo > POO_THRESHOLD by unfold POO_THRESHOLD; omega)]
    refine ⟨?_, ?_, ?_⟩
    · dsimp only
      unfold MIN_STAT
      omega
    · exact hg
    · apply check_game_over_fires
      unfold death_condition MIN_STAT MAX_STAT
      right; right; left
      dsimp only
      omega

/-- Concrete state for the play half of the C10 witness. -/
def c10_play_state : GState :=
  { init_state 0 with hunger := 10, happiness := 50, show_intro := false }

/-- Concrete state for the clean half of the C10 witness. -/
def c10_clean_state : GState :=
  { init_state 0 with happiness := 5, poo := 30, show_intro := false }

/-- Witness for C10: Play at hunger = 10 leaves hunger 0 but the pet
alive; Clean at happiness = 5, poo = 30 leaves happiness 0 but the pet
alive; the next death check then ends the game. -/
theorem claim_delayed_death_after_action_witness :
    ((play_action 3 c10_play_state).hunger = 0 ∧
     (play_action 3 c10_play_state).game_over = false ∧
     (check_game_over 9 (play_action 3 c10_play_state)).1.game_over = true) ∧
    ((clean_action c10_clean_state).happiness = 0 ∧
     (clean_action c10_clean_state).game_over = false ∧
     (check_game_over 9 (clean_action c10_clean_state)).1.game_over = true) :=
  ⟨(claim_delayed_death_after_action 3 9 c10_play_state).1
      (by decide) (by decide) (by decide),
   (claim_delayed_death_after_action 3 9 c10_clean_state).2
      (by decide) (by decide) (by decide)⟩

/-- State for the C6 counterexample: hunger exactly at the boundary 20,
happiness 70, poo 10, no warning active, game running. -/
def c6_state : GState :=
  { init_state 0 with
    hunger := 20, happiness := 70, poo := 10, show_intro := false }

/-- C6 counterexample: at hunger = 20, happiness = 70, poo = 10 the
derived danger level is exactly 0, yet `_check_for_warnings` activates
the warning because its test is boundary-inclusive (hunger ≤ 20); hence
the warning does not begin exactly when the level is strictly above 0,
and a warning can be active while the level is 0. -/
theorem claim_warning_threshold_counterexample :
    danger_level c6_state = 0 ∧
    (check_for_warnings c6_state).led_warning_active = true := by
  constructor
  · norm_num [danger_level, hunger_danger, happiness_danger, poo_danger,
      c6_state, init_state, max_def]
  · decide

/-- C6 (amended): the warning begins when some stat enters the
boundary-inclusive critical zone (hunger or happiness at most 20 or at
least 80, poo at least 80) — a superset of the states whose danger level
is strictly above 0 that also contains the boundary points 20 and 80
where the level is exactly 0 — and an active warning ends at an LED
update exactly when the danger level is 0. -/
theorem claim_warning_threshold_amended (s : GState) :
    (s.led_warning_active = false → s.game_over = false →
      ((check_for_warnings s).led_warning_active = true ↔
        (s.hunger ≤ 20 ∨ s.hunger ≥ 80 ∨ s.happiness ≤ 20 ∨
         s.happiness ≥ 80 ∨ s.poo ≥ 80))) ∧
    (0 < danger_level s →
      (s.hunger ≤ 20 ∨ s.hunger ≥ 80 ∨ s.happiness ≤ 20 ∨
       s.happiness ≥ 80 ∨ s.poo ≥ 80)) ∧
    (s.led_warning_active = true →
      ((update_led_warning s).led_warning_active = false ↔
        danger_level s = 0)) := by
  refine ⟨?_, ?_, ?_⟩
  · intro h1 h2
    unfold check_for_warnings
    rw [if_neg (show ¬(s.led_warning_active = true ∨ s.game_over = true) by
      simp [h1, h2])]
    split
    · rename_i hc
      simpa using hc
    · rename_i hc
      simp [h1]
      push_neg at hc
      exact hc
  · intro hpos
    unfold danger_level hunger_danger happiness_danger poo_danger at hpos
    have key : ∀ x : Rat, 0 < max 0 x / 20 → 0 < x := by
      intro x hx
      by_contra hle
      push_neg at hle
      rw [max_eq_left hle] at hx
      norm_num at hx
    rw [lt_max_iff, lt_max_iff] at hpos
    rcases hpos with (h | h) | h
    · rw [lt_max_iff] at h
      rcases h with h | h
      · have hx := key _ h
        have hr : (s.hunger : Rat) < 20 := by linarith
        have hi : s.hunger < 20 := by exact_mod_cast hr
        omega
      · have hx := key _ h
        have hr : (80 : Rat) < (s.hunger : Rat) := by linarith
        have hi : (80 : Int) < s.hunger := by exact_mod_cast hr
        omega
    · rw [lt_max_iff] at h
      rcases h with h | h
      · have hx := key _ h
        have hr : (s.happiness : Rat) < 20 := by linarith
        have hi : s.happiness < 20 := by exact_mod_cast hr
        omega
      · have hx := key _ h
        have hr : (80 : Rat) < (s.happiness : Rat) := by linarith
        have hi : (80 : Int) < s.happiness := by exact_mod_cast hr
        omega
    · have hx := key _ h
      have hr : (80 : Rat) < (s.poo : Rat) := by linarith
      have hi : (80 : Int) < s.poo := by exact_mod_cast hr
      omega
  · intro h1
    unfold update_led_warning
    rw [if_neg (show ¬ s.led_warning_active = false by simp [h1])]
    split
    · rename_i hd
      simpa using hd
    · rename_i hd
      simp [h1]
      exact hd

/-- State for the C6 amended-claim witness: hunger strictly inside the
critical zone. -/
def c6w_state : GState :=
  { init_state 0 with hunger := 15, show_intro := false }

/-- Witness for the amended C6: at hunger = 15 the warning check
activates the warning. -/
theorem claim_warning_threshold_amended_witness :
    (check_for_warnings c6w_state).led_warning_active = true :=
  ((claim_warning_threshold_amended c6w_state).1 rfl rfl).mpr
    (Or.inl (by decide))

/-- A foreground tick with no buttons pressed. -/
def no_buttons : ButtonState :=
  { cancel := false, confirm := false, up := false, right := false }

theorem update_led_warning_keeps (s : GState) :
    (update_led_warning s).hunger = s.hunger ∧
    (update_led_warning s).happiness = s.happiness ∧
    (update_led_warning s).poo = s.poo ∧
    (update_led_warning s).tick_counter = s.tick_counter := by
  rcases update_led_warning_cases s with h | h <;> rw [h] <;>
    exact ⟨rfl, rfl, rfl, rfl⟩

theorem check_for_warnings_keeps (s : GState) :
    (check_for_warnings s).hunger = s.hunger ∧
    (check_for_warnings s).happiness = s.happiness ∧
    (check_for_warnings s).poo = s.poo ∧
    (check_for_warnings s).tick_counter = s.tick_counter := by
  rcases check_for_warnings_cases s with h | h <;> rw [h] <;>
    exact ⟨rfl, rfl, rfl, rfl⟩

theorem process_decay_tick (now a b c : Int) (s : GState) :
    (process_decay now a b c s).tick_counter = s.tick_counter := by
  unfold process_decay
  dsimp only
  rw [check_game_over_tick]
  repeat' split
  all_goals rfl

theorem process_decay_stats_only (now a b c : Int) (s t : GState)
    (hh : s.hunger = t.hunger) (hp : s.happiness = t.happiness)
    (ho : s.poo = t.poo) :
    (process_decay now a b c s).hunger = (process_decay now a b c t).hunger ∧
    (process_decay now a b c s).happiness =
      (process_decay now a b c t).happiness ∧
    (process_decay now a b c s).poo = (process_decay now a b c t).poo := by
  unfold process_decay
  simp only [check_game_over_hunger, check_game_over_happiness,
    check_game_over_poo]
  rw [hh, hp, ho]
  split_ifs <;> exact ⟨rfl, rfl, rfl⟩

theorem update_no_buttons_eq (now : Int) (s : GState)
    (hi : s.show_intro = false) (hg : s.game_over = false) :
    update now no_buttons s = foreground_decay_step now s := by
  unfold update
  rw [if_neg (show ¬ no_buttons.cancel = true by decide),
    if_neg (show ¬ s.show_intro = true by simp [hi]),
    if_neg (show ¬ s.game_over = true by simp [hg])]
  dsimp only
  rw [if_neg (show ¬ no_buttons.up = true by decide),
    if_neg (show ¬ no_buttons.right = true by decide),
    if_neg (show ¬ no_buttons.confirm = true by decide)]

theorem foreground_decay_step_spec (now : Int) (s : GState) :
    ((foreground_decay_step now s).tick_counter =
      if s.tick_counter + 1 ≥ TICK_RATE then 0 else s.tick_counter + 1) ∧
    (s.tick_counter + 1 < TICK_RATE →
      (foreground_decay_step now s).hunger = s.hunger ∧
      (foreground_decay_step now s).happiness = s.happiness ∧
      (foreground_decay_step now s).poo = s.poo) ∧
    (s.tick_counter + 1 ≥ TICK_RATE →
      (foreground_decay_step now s).hunger =
        (process_decay now 2 2 3 { s with tick_counter := 0 }).hunger ∧
      (foreground_decay_step now s).happiness =
        (process_decay now 2 2 3 { s with tick_counter := 0 }).happiness ∧
      (foreground_decay_step now s).poo =
        (process_decay now 2 2 3 { s with tick_counter := 0 }).poo) := by
  unfold foreground_decay_step
  dsimp only
  split
  · rename_i hge
    refine ⟨?_, fun hlt => absurd hge (by omega), fun _ => ?_⟩
    · split <;> simp [process_decay_tick]
    · split <;> exact ⟨rfl, rfl, rfl⟩
  · rename_i hlt
    exact ⟨rfl, fun _ => ⟨rfl, rfl, rfl⟩, fun hge => absurd hge hlt⟩

theorem cfw_pd_stats (now a b c : Int) (u v : GState)
    (hh : u.hunger = v.hunger) (hp : u.happiness = v.happiness)
    (ho : u.poo = v.poo) :
    (check_for_warnings (process_decay now a b c u)).hunger =
      (process_decay now a b c v).hunger ∧
    (check_for_warnings (process_decay now a b c u)).happiness =
      (process_decay now a b c v).happiness ∧
    (check_for_warnings (process_decay now a b c u)).poo =
      (process_decay now a b c v).poo := by
  obtain ⟨ch, cp, co, -⟩ := check_for_warnings_keeps (process_decay now a b c u)
  obtain ⟨dh, dp, dq⟩ := process_decay_stats_only now a b c u v hh hp ho
  exact ⟨ch.trans dh, cp.trans dp, co.trans dq⟩

theorem background_update_spec (now : Int) (s : GState)
    (hc : s.app_should_close = false) :
    ((background_update now s).tick_counter =
      if s.tick_counter + 1 ≥ TICK_RATE then 0 else s.tick_counter + 1) ∧
    (s.tick_counter + 1 < TICK_RATE →
      (background_update now s).hunger = s.hunger ∧
      (background_update now s).happiness = s.happiness ∧
      (background_update now s).poo = s.poo) ∧
    (s.tick_counter + 1 ≥ TICK_RATE →
      (background_update now s).hunger =
        (process_decay now 1 1 2 { s with tick_counter := 0 }).hunger ∧
      (background_update now s).happiness =
        (process_decay now 1 1 2 { s with tick_counter := 0 }).happiness ∧
      (background_update now s).poo =
        (process_decay now 1 1 2 { s with tick_counter := 0 }).poo) := by
  unfold background_update
  rw [if_neg (show ¬ s.app_should_close = true by simp [hc])]
  dsimp only
  rcases update_led_warning_cases s with hu | hu <;>
    split <;> try rw [hu]
  all_goals try dsimp only
  all_goals split
  all_goals
    first
      | (rename_i hlt
         exact ⟨rfl, fun _ => ⟨rfl, rfl, rfl⟩, fun hge => absurd hge hlt⟩)
      | (rename_i hge
         refine ⟨?_, fun hlt => absurd hge (by omega), fun _ => ?_⟩
         · rw [(check_for_warnings_keeps _).2.2.2, process_decay_tick]
         · exact cfw_pd_stats now 1 1 2 _ _ rfl rfl rfl)

/-- Starting playing state for the C8 witness and counterexample: the
state right after the intro is confirmed at instant 0. -/
def c8_start : GState :=
  { init_state 0 with show_intro := false, game_start_time := some 0 }

set_option maxRecDepth 4000 in
/-- C8 counterexample: 49 background ticks (fewer than the 50 needed for
a decay) leave the single shared counter at 49 and the stats untouched
(hunger still 70); ONE further foreground tick then immediately fires the
foreground decay (counter resets to 0, hunger drops by the foreground
magnitude 2 to 68), so delivering fewer than 50 ticks in background mode
did advance the foreground countdown: the two modes do not keep separate
counters. -/
theorem claim_separate_counters_counterexample :
    ((background_update 0)^[49] c8_start).tick_counter = 49 ∧
    ((background_update 0)^[49] c8_start).hunger = 70 ∧
    (update 0 no_buttons ((background_update 0)^[49] c8_start)).tick_counter
      = 0 ∧
    (update 0 no_buttons ((background_update 0)^[49] c8_start)).hunger
      = 68 := by
  decide

/-- C8 (amended): decay fires exactly when the tick counter reaches the
threshold 50, after which the counter resets to 0, in both modes with
their own magnitudes (background 1/1/2, foreground 2/2/3); but the two
modes share the single `tick_counter` field rather than keeping separate
counters, so the identical threshold formula below governs both modes
over the one shared counter and ticks delivered in one mode advance the
other mode countdown. -/
theorem claim_shared_tick_counter_amended (now : Int) (s : GState)
    (hc : s.app_should_close = false) (hi : s.show_intro = false)
    (hg : s.game_over = false) :
    (((background_update now s).tick_counter =
        if s.tick_counter + 1 ≥ TICK_RATE then 0 else s.tick_counter + 1) ∧
      (s.tick_counter + 1 < TICK_RATE →
        (background_update now s).hunger = s.hunger ∧
        (background_update now s).happiness = s.happiness ∧
        (background_update now s).poo = s.poo) ∧
      (s.tick_counter + 1 ≥ TICK_RATE →
        (background_update now s).hunger =
          (process_decay now 1 1 2 { s with tick_counter := 0 }).hunger ∧
        (background_update now s).happiness =
          (process_decay now 1 1 2 { s with tick_counter := 0 }).happiness ∧
        (background_update now s).poo =
          (process_decay now 1 1 2 { s with tick_counter := 0 }).poo)) ∧
    (((update now no_buttons s).tick_counter =
        if s.tick_counter + 1 ≥ TICK_RATE then 0 else s.tick_counter + 1) ∧
      (s.tick_counter + 1 < TICK_RATE →
        (update now no_buttons s).hunger = s.hunger ∧
        (update now no_buttons s).happiness = s.happiness ∧
        (update now no_buttons s).poo = s.poo) ∧
      (s.tick_counter + 1 ≥ TICK_RATE →
        (update now no_buttons s).hunger =
          (process_decay now 2 2 3 { s with tick_counter := 0 }).hunger ∧
        (update now no_buttons s).happiness =
          (process_decay now 2 2 3 { s with tick_counter := 0 }).happiness ∧
        (update now no_buttons s).poo =
          (process_decay now 2 2 3 { s with tick_counter := 0 }).poo)) := by
  rw [update_no_buttons_eq now s hi hg]
  exact ⟨background_update_spec now s hc, foreground_decay_step_spec now s⟩

/-- Witness for the amended C8: from a fresh playing state (counter 0), a
single tick in either mode advances the shared counter to 1 and fires no
decay. -/
theorem claim_shared_tick_counter_amended_witness :
    (background_update 0 c8_start).tick_counter = 1 ∧
    (update 0 no_buttons c8_start).tick_counter = 1 := by
  have h := claim_shared_tick_counter_amended 0 c8_start rfl rfl rfl
  constructor
  · have h1 := h.1.1
    simpa [c8_start, init_state] using h1
  · have h2 := h.2.1
    simpa [c8_start, init_state] using h2

/-- C9: `_seconds_to_readable` is embedded as a pure function; for every
non-negative duration it renders a genuine days/hours/minutes/seconds
breakdown (the components recompose to the input and stay within their
unit ranges), every zero unit is omitted from the rendering, and the
seconds component is always shown when all higher units are zero. -/
theorem claim_duration_format (seconds : Int) (h : 0 ≤ seconds) :
    (86400 * days_of seconds + 3600 * hours_of seconds +
      60 * minutes_of seconds + secs_of seconds = seconds ∧
     0 ≤ days_of seconds ∧
     0 ≤ hours_of seconds ∧ hours_of seconds < 24 ∧
     0 ≤ minutes_of seconds ∧ minutes_of seconds < 60 ∧
     0 ≤ secs_of seconds ∧ secs_of seconds < 60) ∧
    seconds_to_readable seconds =
      String.intercalate " "
        ((if days_of seconds > 0 then [toString (days_of seconds) ++ "d"]
          else []) ++
         (if hours_of seconds > 0 then [toString (hours_of seconds) ++ "h"]
          else []) ++
         (if minutes_of seconds > 0 then
            [toString (minutes_of seconds) ++ "m"] else []) ++
         (if secs_of seconds > 0 ∨
            (days_of seconds = 0 ∧ hours_of seconds = 0 ∧
             minutes_of seconds = 0) then
            [toString (secs_of seconds) ++ "s"] else [])) ∧
    (days_of seconds = 0 → hours_of seconds = 0 → minutes_of seconds = 0 →
      seconds_to_readable seconds = toString (secs_of seconds) ++ "s") := by
  have hd0 : 0 ≤ days_of seconds := by unfold days_of; omega
  have hh0 : 0 ≤ hours_of seconds := by unfold hours_of; omega
  have hm0 : 0 ≤ minutes_of seconds := by unfold minutes_of; omega
  refine ⟨?_, ?_, ?_⟩
  · unfold days_of hours_of minutes_of secs_of
    omega
  · unfold seconds_to_readable
    dsimp only
    have ed : days_of seconds = 0 ↔ ¬ days_of seconds > 0 := by omega
    have eh : hours_of seconds = 0 ↔ ¬ hours_of seconds > 0 := by omega
    have em : minutes_of seconds = 0 ↔ ¬ minutes_of seconds > 0 := by omega
    simp only [ed, eh, em]
    by_cases h1 : days_of seconds > 0 <;>
      by_cases h2 : hours_of seconds > 0 <;>
        by_cases h3 : minutes_of seconds > 0 <;>
          by_cases h4 : secs_of seconds > 0 <;>
            simp [h1, h2, h3, h4]
  · intro hd hh2 hm2
    unfold seconds_to_readable
    dsimp only
    rw [if_neg (show ¬ days_of seconds > 0 by omega),
      if_neg (show ¬ hours_of seconds > 0 by omega),
      if_neg (show ¬ minutes_of seconds > 0 by omega),
      if_pos (show secs_of seconds > 0 ∨ ([] : List String) = []
        from Or.inr rfl)]
    rfl

/-- Witness for C9 at duration 0: every component is zero and the
rendering shows the seconds unit alone. -/
theorem claim_duration_format_witness : seconds_to_readable 0 = "0s" := by
  have h := (claim_duration_format 0 (by norm_num)).2.2 rfl rfl rfl
  rw [h]
  rfl

end Badgagotchi
